import Mathlib

/-!
Verification of the Markdown-generation core of `streamlitCloud_app.py`.

Shallow embedding of the four extraction-result-to-Markdown assemblers of the
repository `RupamDX/Big-Data__Assignment-1` (file `streamlitCloud_app.py`), and
of the S3 asset re-hosting helper they share.

External collaborators (PyMuPDF, pdfplumber, tabula, pandas, openpyxl,
BeautifulSoup, requests, boto3, the Adobe PDF Services SDK and the Diffbot API)
are modelled as data given to the assemblers: each assembler here is a pure
function of the backend extraction result it receives, plus explicit values for
the run-dependent quantities the Python code obtains from the environment
(temporary-file names, the timestamped zip path, the outcome a network upload
would have).  Effectful steps that the claims talk about (whether an S3 upload
is attempted) are made visible as fields of the result value.
-/

/-- Python `str.startswith`, as a prefix test on the character list. -/
def pyStartsWith (s p : String) : Bool := p.data.isPrefixOf s.data

/-- Python `os.path.basename`: the final path component, i.e. the characters after the
last `/` (empty when the path ends in `/`). -/
def basename (p : String) : String :=
  String.mk ((p.data.reverse.takeWhile (fun c => c != '/')).reverse)

/-- Split a character list at the first occurrence of the (non-empty) pattern
`sep`, returning the parts before and after it, or `none` when it does not
occur. -/
def breakOnSub (sep : List Char) : List Char → Option (List Char × List Char)
  | [] => none
  | c :: rest =>
      if sep.isPrefixOf (c :: rest) then some ([], (c :: rest).drop sep.length)
      else
        match breakOnSub sep rest with
        | some (pre, post) => some (c :: pre, post)
        | none => none

/-- Split a character list at the first `/`, keeping the `/` with the tail. -/
def breakOnSlash : List Char → List Char × List Char
  | [] => ([], [])
  | c :: rest =>
      if c == '/' then ([], c :: rest)
      else
        let r := breakOnSlash rest
        (c :: r.1, r.2)

/-- Split a character list on every occurrence of the separator character
(`str.split(sep)` semantics: `n` separators yield `n+1` pieces). -/
def splitOnChar (sep : Char) : List Char → List (List Char)
  | [] => [[]]
  | c :: rest =>
      if c == sep then [] :: splitOnChar sep rest
      else
        match splitOnChar sep rest with
        | [] => [[c]]
        | h :: t => (c :: h) :: t

/-- Interleave a separator character between the pieces. -/
def intercalateChar (sep : Char) : List (List Char) → List Char
  | [] => []
  | [x] => x
  | x :: y :: rest => x ++ sep :: intercalateChar sep (y :: rest)

/-- One fuel-indexed step list-rewriting pass: replace each non-overlapping
occurrence of `pat`, scanning left to right. -/
def replaceFuel (pat rep : List Char) : Nat → List Char → List Char
  | 0, l => l
  | _, [] => []
  | fuel + 1, c :: rest =>
      if pat.isPrefixOf (c :: rest) then
        rep ++ replaceFuel pat rep fuel ((c :: rest).drop pat.length)
      else c :: replaceFuel pat rep fuel rest

/-- Python `str.replace` (for a non-empty pattern): replace every
non-overlapping occurrence, scanning left to right. -/
def pyReplace (s pat rep : String) : String :=
  String.mk (replaceFuel pat.data rep.data s.data.length s.data)

/-- The Streamlit secrets consulted by the app via `st.secrets.get`/`st.secrets[...]`.
`none` models an absent key. -/
structure Secrets where
  s3BucketName : Option String
  awsAccessKeyId : Option String
  awsSecretAccessKey : Option String
  awsDefaultRegion : Option String
  diffbotApiToken : Option String
  deriving DecidableEq

/-- Outcome the boto3 `upload_file` call would have, had it been reached:
it either returns normally or raises one of the exceptions caught in
`upload_file_to_s3` (`FileNotFoundError`, `NoCredentialsError`, anything else). -/
inductive S3Outcome where
  | success
  | fileNotFound
  | noCredentials
  | failure (msg : String)
  deriving DecidableEq

/-- Result of `upload_file_to_s3`, with the effect trace made explicit:
`attempted` records whether the boto3 upload call was reached at all, and
`url` is the function's Python return value (`None` modelled as `none`). -/
structure S3Result where
  attempted : Bool
  url : Option String
  deriving DecidableEq

/-- The guard of `upload_file_to_s3` (line 262):
`not (bucket_name and aws_key and aws_secret)` after
`st.secrets.get(key, "")` lookups, i.e. the upload proceeds only when all
three values are present and non-empty. -/
def s3Configured (s : Secrets) : Bool :=
  !(s.s3BucketName.getD "" == "" || s.awsAccessKeyId.getD "" == "" ||
    s.awsSecretAccessKey.getD "" == "")

/-- Model of `upload_file_to_s3` (lines 251-286).  When configured, the upload is
attempted; on success the returned URL is
`https://<bucket>.s3.amazonaws.com/<basename of file_path>`, and every caught
exception yields `None`.  When not configured the function skips without
attempting the upload and returns `None`. -/
def upload_file_to_s3 (s : Secrets) (oc : S3Outcome) (file_path : String) : S3Result :=
  if s3Configured s then
    let object_key := basename file_path
    match oc with
    | S3Outcome.success =>
        ⟨true, some ("https://" ++ s.s3BucketName.getD "" ++ ".s3.amazonaws.com/" ++ object_key)⟩
    | _ => ⟨true, none⟩
  else ⟨false, none⟩

/-- One image as discovered by PyMuPDF on a page (`page.get_images(full=True)`
followed by `doc.extract_image`); only its extension is observable in the
assembler (it shapes the temp-file suffix). -/
structure PdfImage where
  ext : String

/-- One page of the local document, as seen by the two local extractors:
its discovered images (PyMuPDF) and its text (`page.extract_text()`,
`none` when pdfplumber returns `None`). -/
structure PdfPage where
  images : List PdfImage
  text : Option String

/-- The Markdown fragment `extract_images_to_md` emits for the image at
1-based page `page_num+1`, index `img_index+1`: the temp file at `tmpPath` is
uploaded and the result decides between an image-reference line and the bold
warning line (lines 78-85). -/
def imageFrag (s : Secrets) (oc : S3Outcome) (tmpPath : String)
    (page_num img_index : Nat) : String :=
  match (upload_file_to_s3 s oc tmpPath).url with
  | some s3_url =>
      "![Image page " ++ toString (page_num + 1) ++ " - " ++ toString (img_index + 1) ++
        "](" ++ s3_url ++ ")\n"
  | none =>
      "\n**[Warning: Failed to upload image (page " ++ toString (page_num + 1) ++
        ", index " ++ toString (img_index + 1) ++ ") to S3]**\n"

/-- Body of the Images section: pages in order, then images in within-page
discovery order.  `net p i` is the outcome the S3 transport would give for the
image at page `p`, index `i`; `tmpName p i` is the (run-dependent) name of the
temporary file that image is written to before upload. -/
def imageLines (s : Secrets) (net : Nat → Nat → S3Outcome)
    (tmpName : Nat → Nat → String) (pages : List PdfPage) : String :=
  String.join (pages.enum.map fun pp =>
    String.join (pp.2.images.enum.map fun ii =>
      imageFrag s (net pp.1 ii.1) (tmpName pp.1 ii.1) pp.1 ii.1))

/-- Model of `extract_images_to_md` (lines 42-88). -/
def extract_images_to_md (s : Secrets) (net : Nat → Nat → S3Outcome)
    (tmpName : Nat → Nat → String) (pages : List PdfPage) : String :=
  "\n## Extracted Images\n" ++ imageLines s net tmpName pages

/-- Body of the Text section: one `### Page n` subheading per page with the
page text (or `""`) fenced verbatim. -/
def textLines (pages : List PdfPage) : String :=
  String.join (pages.enum.map fun pp =>
    "\n### Page " ++ toString (pp.1 + 1) ++ "\n```\n" ++ pp.2.text.getD "" ++ "\n```\n")

/-- Model of `extract_text_to_md` (lines 91-98). -/
def extract_text_to_md (pages : List PdfPage) : String :=
  "\n## Extracted Text\n" ++ textLines pages

/-- A pandas DataFrame as this app observes it: column labels and string cell
data (tabula and the website scraper both hand such frames to
`DataFrame.to_markdown`, an external renderer). -/
structure PandasDF where
  columns : List String
  data : List (List String)
  deriving DecidableEq

/-- Body of the Tables section of the local-document assembler: on a normal
tabula result, one `### Table i` block per table rendered by the external
`to_markdown`; when `tabula.read_pdf` raises, the single failure line of the
`except` branch (lines 103-110). -/
def tablesBody (to_markdown : PandasDF → String) :
    Except String (List PandasDF) → String
  | Except.ok tables =>
      String.join (tables.enum.map fun it =>
        "\n### Table " ++ toString (it.1 + 1) ++ "\n" ++ to_markdown it.2 ++ "\n")
  | Except.error e => "\nFailed to process tables: " ++ e ++ "\n"

/-- Model of `extract_tables_to_md` (lines 100-111). -/
def extract_tables_to_md (to_markdown : PandasDF → String)
    (tables : Except String (List PandasDF)) : String :=
  "\n## Extracted Tables\n" ++ tablesBody to_markdown tables

/-- Model of `open_source_extract_pdf` (lines 113-119): title line from the basename of
the pdf path, then the three extractor fragments in fixed order. -/
def open_source_extract_pdf (s : Secrets) (net : Nat → Nat → S3Outcome)
    (tmpName : Nat → Nat → String) (to_markdown : PandasDF → String)
    (pdf_path : String) (pages : List PdfPage)
    (tables : Except String (List PandasDF)) : String :=
  "# Extracted Content from " ++ basename pdf_path ++ "\n" ++
    extract_images_to_md s net tmpName pages ++
    extract_text_to_md pages ++
    extract_tables_to_md to_markdown tables

/-- Allowed characters of a URL scheme after its first letter
(`urllib.parse` accepts letters, digits, `+`, `-`, `.`). -/
def schemeChar (c : Char) : Bool := c.isAlphanum || c == '+' || c == '-' || c == '.'

/-- Whether a reference string carries its own scheme component, the way
`urllib.parse.urlsplit` recognises one: a non-empty run of scheme characters
starting with a letter, terminated by `:`, before any other delimiter. -/
def hasScheme (r : String) : Bool :=
  let pre := r.data.takeWhile (fun c => c != ':')
  decide (pre.length < r.data.length) && !pre.isEmpty && pre.all schemeChar &&
    (match pre with
     | c :: _ => c.isAlpha
     | [] => false)

/-- Scheme, network location and path of an `http(s)`-style base URL. -/
structure UrlParts where
  scheme : String
  netloc : String
  path : String
  deriving DecidableEq

/-- Split `scheme://netloc/path` into its components at the first `://` and
the first following `/` (`none` when no `://` occurs). -/
def splitUrl (u : String) : Option UrlParts :=
  match breakOnSub "://".data u.data with
  | none => none
  | some (pre, post) =>
      let np := breakOnSlash post
      some ⟨String.mk pre, String.mk np.1, String.mk np.2⟩

/-- RFC 3986 dot-segment removal on a path, as performed inside
`urllib.parse.urljoin` (a trailing `.`/`..` keeps the trailing slash, and `..`
cannot climb above the root of an absolute path). -/
def removeDotSegments (path : String) : String :=
  let segs := splitOnChar '/' path.data
  let core := segs.foldl (fun acc s =>
    if s = ['.'] then acc
    else if s = ['.', '.'] then (if acc.length ≤ 1 then acc else acc.dropLast)
    else acc ++ [s]) ([] : List (List Char))
  let core2 :=
    if segs.getLastD [] = ['.'] ∨ segs.getLastD [] = ['.', '.'] then core ++ [[]] else core
  String.mk (intercalateChar '/' core2)

/-- RFC 3986 path merge: a relative reference replaces everything after the
last `/` of the base path (an empty base path acts as `/`). -/
def mergePaths (basePath ref : String) : String :=
  if basePath == "" then "/" ++ ref
  else String.mk ((basePath.data.reverse.dropWhile (fun c => c != '/')).reverse) ++ ref

/-- Modelled from the library: `urllib.parse.urljoin`, restricted to the inputs
this app produces — an `http(s)`-style base (the page URL) and references that
are empty, protocol-relative (`//…`), carrying a scheme other than the base's
(returned unchanged), or scheme-less relative references (resolved against the
base per RFC 3986). -/
def urljoin (base ref : String) : String :=
  if ref == "" then base
  else if pyStartsWith ref "//" then
    match splitUrl base with
    | some p => p.scheme ++ ":" ++ ref
    | none => ref
  else if hasScheme ref then ref
  else
    match splitUrl base with
    | none => ref
    | some p =>
        if pyStartsWith ref "/" then
          p.scheme ++ "://" ++ p.netloc ++ removeDotSegments ref
        else
          p.scheme ++ "://" ++ p.netloc ++ removeDotSegments (mergePaths p.path ref)

/-- The image-`src` normalisation of `open_source_extract_website`
(lines 310-316): protocol-relative srcs get `https:` prepended, srcs without an
`http:`/`https:` start are joined onto the page URL, the rest pass through. -/
def resolveSrc (url src : String) : String :=
  if pyStartsWith src "//" then "https:" ++ src
  else if !(pyStartsWith src "http:" || pyStartsWith src "https:") then urljoin url src
  else src

/-- The link-`href` normalisation of `open_source_extract_website`
(lines 321-325): hrefs without an `http:`/`https:` start are joined onto the
page URL, the rest pass through. -/
def resolveHref (url href : String) : String :=
  if !(pyStartsWith href "http:" || pyStartsWith href "https:") then urljoin url href
  else href

/-- An `<img>` tag as BeautifulSoup hands it over: its `src` attribute when
present. -/
structure HtmlImg where
  src : Option String

/-- An `<a>` tag found by `find_all('a', href=True)`: its `href` attribute. -/
structure HtmlLink where
  href : String

/-- An HTML `<table>`: per `<tr>`, the stripped texts of its `td`/`th` cells. -/
structure HtmlTable where
  rows : List (List String)

/-- A scraped page as BeautifulSoup presents it to the assembler. -/
structure Webpage where
  paragraphs : List String
  images : List HtmlImg
  links : List HtmlLink
  tables : List HtmlTable

/-- Number of columns `pandas.DataFrame(table_data)` infers: the longest row. -/
def dfNumCols (td : List (List String)) : Nat :=
  (td.map List.length).foldl Nat.max 0

/-- Row padding `pandas.DataFrame` performs on ragged input (missing cells
become NaN, which prints as `nan`). -/
def padRow (n : Nat) (r : List String) : List String :=
  r ++ List.replicate (n - r.length) "nan"

/-- The table-shaping step of `open_source_extract_website` (lines 330-342):
empty tables are dropped; with more than one row the first row is promoted to
the column header (`df.columns = df.iloc[0]; df = df[1:]`); a single-row table
keeps pandas' default integer column labels. -/
def websiteTableDf (table_data : List (List String)) : Option PandasDF :=
  let n := dfNumCols table_data
  match table_data.map (padRow n) with
  | [] => none
  | r0 :: rest =>
      if rest = [] then some ⟨(List.range n).map toString, [r0]⟩
      else some ⟨r0, rest⟩

/-- Model of `open_source_extract_website` (lines 293-363), given the parsed page that
BeautifulSoup produced for the fetched URL (a non-success fetch status raises
before this point) and the external `DataFrame.to_markdown` renderer. -/
def open_source_extract_website (to_markdown : PandasDF → String)
    (url : String) (page : Webpage) : String :=
  let text_content := String.intercalate "\n" page.paragraphs
  let image_urls := page.images.filterMap fun img => img.src.map (resolveSrc url)
  let link_urls := page.links.map fun l => resolveHref url l.href
  let extracted_tables := page.tables.filterMap fun t => websiteTableDf t.rows
  "# Extracted Content from " ++ url ++ "\n\n" ++
    "## Text Content\n\n" ++ text_content ++ "\n\n" ++
    "## Images\n\n" ++
    String.join (image_urls.map fun u => "![Image](" ++ u ++ ")\n\n") ++
    "## Links\n\n" ++
    String.join (link_urls.map fun u => "- [" ++ u ++ "](" ++ u ++ ")\n") ++ "\n" ++
    "## Tables\n\n" ++
    String.join (extracted_tables.enum.map fun it =>
      "### Table " ++ toString (it.1 + 1) ++ "\n\n" ++ to_markdown it.2 ++ "\n\n")

/-- A run of `n` dash characters (`"-" * n`). -/
def dashes (n : Nat) : String := String.mk (List.replicate n '-')

/-- A cell value as `openpyxl` yields it from a spreadsheet
(`iter_rows(values_only=True)`): absent, text, integer, float or boolean.
A float is carried as its Python truthiness (`isZero`) together with the string
`str()` would print for it, so no floating-point arithmetic is modelled. -/
inductive XCell where
  | none
  | str (s : String)
  | int (n : Int)
  | float (isZero : Bool) (repr : String)
  | bool (b : Bool)
  deriving DecidableEq

/-- Python truthiness of a cell value, as tested by `if cell`. -/
def cellTruthy : XCell → Bool
  | XCell.none => false
  | XCell.str s => !(s == "")
  | XCell.int n => !(n == 0)
  | XCell.float z _ => !z
  | XCell.bool b => b

/-- Python `str()` of a cell value. -/
def pyStr : XCell → String
  | XCell.none => "None"
  | XCell.str s => s
  | XCell.int n => toString n
  | XCell.float _ r => r
  | XCell.bool b => if b then "True" else "False"

/-- The cell rendering of `adobe_zip_to_markdown` (line 230):
`str(cell) if cell else ""`. -/
def pyCellRender (c : XCell) : String :=
  if cellTruthy c then pyStr c else ""

/-- One element of the Adobe `structuredData.json` manifest: its `Text` value
when the `Text` key is present, and its `Table`'s `Rows` (default `[]` is a
present empty list) when the `Table` key is present. -/
structure AdobeElement where
  text : Option String
  table : Option (List (List String))

/-- The downloaded Adobe result bundle after unzipping: whether
`structuredData.json` exists, its elements, the `tables/` folder (listed files
with their spreadsheet rows) when it exists, and the `figures/` folder (listed
names with their `os.path.isfile` status) when it exists. -/
structure AdobeBundle where
  hasManifest : Bool
  elements : List AdobeElement
  tablesFolder : Option (List (String × List (List XCell)))
  figuresFolder : Option (List (String × Bool))

/-- Python `sorted(os.listdir(...))`: directory entries in lexicographic name order. -/
def sortByName {α : Type} (files : List (String × α)) : List (String × α) :=
  files.insertionSort (fun a b => a.1 ≤ b.1)

/-- The pipe-table loop of `adobe_zip_to_markdown` (lines 213-217): each row on
one `| … |` line, and right after the first row a separator whose dash run for
each column counts that header cell's characters. -/
def adobeTableRowsMd (rows : List (List String)) : String :=
  String.join (rows.enum.map fun ir =>
    "| " ++ String.intercalate " | " ir.2 ++ " |\n" ++
      (if ir.1 = 0 then
        "| " ++ String.intercalate " | " (ir.2.map fun col => dashes col.length) ++ " |\n"
      else ""))

/-- The two manifest-element blocks of `adobe_zip_to_markdown` (lines 208-218). -/
def adobeElementMd (e : AdobeElement) : String :=
  (match e.text with
   | some t => "## Text Element\n" ++ t ++ "\n\n"
   | none => "") ++
  (match e.table with
   | some rows => "## Table Element\n" ++ adobeTableRowsMd rows ++ "\n"
   | none => "")

/-- The spreadsheet-row loop of `adobe_zip_to_markdown` (lines 229-233), with
the separator dash runs counting the rendered cell strings. -/
def xlsxRowsMd (rows : List (List XCell)) : String :=
  String.join (rows.enum.map fun ir =>
    let row_data := ir.2.map pyCellRender
    "| " ++ String.intercalate " | " row_data ++ " |\n" ++
      (if ir.1 = 0 then
        "| " ++ String.intercalate " | " (row_data.map fun r => dashes r.length) ++ " |\n"
      else ""))

/-- The `tables/` folder pass of `adobe_zip_to_markdown` (lines 221-234):
listed files in sorted order, `.xlsx` ones rendered under a
`## Table from <filename>` heading. -/
def xlsxTablesMd (folder : Option (List (String × List (List XCell)))) : String :=
  match folder with
  | none => ""
  | some files =>
      String.join ((sortByName files).map fun f =>
        if f.1.endsWith ".xlsx" then
          "## Table from " ++ f.1 ++ "\n" ++ xlsxRowsMd f.2 ++ "\n"
        else "")

/-- The `figures/` folder pass of `adobe_zip_to_markdown` (lines 237-247):
every regular file is uploaded and referenced by its S3 URL, or by its local
path under `out_dir` when the upload yields no URL. -/
def figuresMd (s : Secrets) (net : String → S3Outcome) (out_dir : String)
    (folder : Option (List (String × Bool))) : String :=
  match folder with
  | none => ""
  | some files =>
      "## Images\n\n" ++
        String.join ((sortByName files).map fun fg =>
          if fg.2 then
            let fig_path := out_dir ++ "/figures/" ++ fg.1
            match (upload_file_to_s3 s (net fg.1) fig_path).url with
            | some u => "![Figure](" ++ u ++ ")\n\n"
            | none => "![Figure](" ++ fig_path ++ ")\n\n"
          else "")

/-- Model of `create_adobe_zip_path` (lines 184-188), as a function of the
`datetime.now()` timestamp string it embeds. -/
def create_adobe_zip_path (now_str : String) : String :=
  "temp_adobe_extractions/extraction_" ++ now_str ++ ".zip"

/-- Model of `adobe_zip_to_markdown` (lines 190-249): the extraction directory is the
zip path with `.zip` removed; a missing manifest raises `FileNotFoundError`
(the `Except.error`), otherwise the title, manifest elements, spreadsheet
tables and figures are concatenated.  `net` gives the S3 transport outcome per
figure file name. -/
def adobe_zip_to_markdown (s : Secrets) (net : String → S3Outcome)
    (zip_file_path : String) (b : AdobeBundle) : Except String String :=
  let out_dir := pyReplace zip_file_path ".zip" ""
  if b.hasManifest then
    Except.ok ("# Extracted PDF Data (Enterprise)\n\n" ++
      String.join (b.elements.map adobeElementMd) ++
      xlsxTablesMd b.tablesFolder ++
      figuresMd s net out_dir b.figuresFolder)
  else Except.error "structuredData.json not found in ZIP extract."

instance : DecidableEq (Except String String)
  | Except.error a, Except.error b =>
      if h : a = b then Decidable.isTrue (by rw [h])
      else Decidable.isFalse (fun hh => h (Except.error.inj hh))
  | Except.error _, Except.ok _ => Decidable.isFalse (fun hh => Except.noConfusion hh)
  | Except.ok _, Except.error _ => Decidable.isFalse (fun hh => Except.noConfusion hh)
  | Except.ok a, Except.ok b =>
      if h : a = b then Decidable.isTrue (by rw [h])
      else Decidable.isFalse (fun hh => h (Except.ok.inj hh))

/-- One image object of a Diffbot content object (`url`/`caption` keys). -/
structure DiffbotImage where
  url : Option String
  caption : Option String

/-- One table object of a Diffbot content object (its `rows` key). -/
structure DiffbotTable where
  rows : Option (List (List String))

/-- One content object of the Diffbot response. -/
structure DiffbotObject where
  title : Option String
  text : Option String
  images : Option (List DiffbotImage)
  tables : Option (List DiffbotTable)

/-- The Diffbot article-API response: HTTP status and the `objects` list of the
JSON body (`none` when the key is absent). -/
structure DiffbotResponse where
  status_code : Nat
  objects : Option (List DiffbotObject)

/-- The pipe-table rendering of `enterprise_extract_website` (lines 409-416):
nothing for an empty row list, otherwise the first row as header, a dash
separator counting each header cell's characters, the remaining rows, and a
blank separator line. -/
def diffbotTableMd (rows : List (List String)) : String :=
  match rows with
  | [] => ""
  | r0 :: rest =>
      "| " ++ String.intercalate " | " r0 ++ " |\n" ++
        "| " ++ String.intercalate " | " (r0.map fun col => dashes col.length) ++ " |\n" ++
        String.join (rest.map fun row => "| " ++ String.intercalate " | " row ++ " |\n") ++
        "\n"

/-- The per-object block of `enterprise_extract_website` (lines 390-416). -/
def diffbotObjectMd (obj : DiffbotObject) : String :=
  let images := obj.images.getD []
  let tables := obj.tables.getD []
  "# " ++ obj.title.getD "Untitled" ++ "\n\n" ++
    obj.text.getD "" ++ "\n\n" ++
    (if images.isEmpty then ""
     else "## Images\n\n" ++
       String.join (images.map fun img =>
         "![" ++ img.caption.getD "Image" ++ "](" ++ img.url.getD "" ++ ")\n\n")) ++
    (if tables.isEmpty then ""
     else "## Tables\n\n" ++
       String.join (tables.map fun t => diffbotTableMd (t.rows.getD [])))

/-- Model of `enterprise_extract_website` (lines 369-418): `None` without a token, on a
non-200 status, and when the assembled markdown is empty (in particular when
`objects` is empty); otherwise the concatenated object blocks. -/
def enterprise_extract_website (s : Secrets) (resp : DiffbotResponse) : Option String :=
  let diffbot_token := s.diffbotApiToken.getD ""
  if diffbot_token == "" then none
  else if !(resp.status_code == 200) then none
  else
    let objects := resp.objects.getD []
    let markdown := String.join (objects.map diffbotObjectMd)
    if markdown == "" then none else some markdown

/-- A fully configured secrets store, for concrete evaluations. -/
def secFull : Secrets := ⟨some "bkt", some "key", some "secret", some "us-east-1", some "tok"⟩

/-- An empty secrets store (no key configured), for concrete evaluations. -/
def secNone : Secrets := ⟨none, none, none, none, none⟩

/-- An S3 transport that would succeed for every upload. -/
def netSuccess : String → S3Outcome := fun _ => S3Outcome.success

/-- A result bundle holding a manifest with no elements and a single figure
file, for concrete evaluations. -/
def figBundle : AdobeBundle := ⟨true, [], none, some [("fig.png", true)]⟩

/-! ## Helper lemmas -/

theorem strMk_append (d e : List Char) : (⟨d ++ e⟩ : String) = ⟨d⟩ ++ ⟨e⟩ := rfl

theorem strMk_data (a : String) : (⟨a.data⟩ : String) = a := rfl

theorem strJoin_cons (a : String) (l : List String) :
    String.join (a :: l) = a ++ String.join l := by
  rw [String.join_eq, String.join_eq, List.map_cons, List.flatten_cons, strMk_append, strMk_data]

theorem strJoin_nil : String.join [] = "" := rfl

theorem strJoin_all_empty {α : Type} (f : α → String) :
    ∀ (l : List α), (∀ x ∈ l, f x = "") → String.join (l.map f) = ""
  | [], _ => rfl
  | a :: l, h => by
      rw [List.map_cons, strJoin_cons, h a (List.mem_cons_self a l),
        strJoin_all_empty f l (fun x hx => h x (List.mem_cons_of_mem a hx)),
        String.append_empty]

theorem snd_mem_of_mem_enumFrom {α : Type} :
    ∀ (l : List α) (n : Nat) (p : Nat × α), p ∈ l.enumFrom n → p.2 ∈ l
  | a :: l, n, p, h => by
      rcases List.mem_cons.mp h with h1 | h2
      · rw [h1]; exact List.mem_cons_self a l
      · exact List.mem_cons_of_mem a (snd_mem_of_mem_enumFrom l (n + 1) p h2)

/-- Joining an index-aware rendering over `enumFrom n` with `n ≠ 0` forgets the
indices when the renderer only distinguishes index `0`. -/
theorem strJoin_enumFrom_map {α : Type} (f : α → String) (g : Nat × α → String)
    (hg : ∀ i a, i ≠ 0 → g (i, a) = f a) :
    ∀ (n : Nat) (l : List α), n ≠ 0 →
      String.join ((l.enumFrom n).map g) = String.join (l.map f)
  | _, [], _ => rfl
  | n, a :: l, hn => by
      show String.join (g (n, a) :: (l.enumFrom (n + 1)).map g) = _
      rw [List.map_cons, strJoin_cons, strJoin_cons, hg n a hn,
        strJoin_enumFrom_map f g hg (n + 1) l (Nat.succ_ne_zero n)]

/-! ## Claims -/

/-- C3: `upload_file_to_s3` attempts an upload iff bucket name, access key and
secret key are all present (non-empty) in configuration; when any is missing it
deterministically skips without attempting and returns no URL; on a successful
upload it returns exactly `https://<bucket>.s3.amazonaws.com/<basename>`; on
any transport failure (missing file, missing credentials at call time, other
errors) it returns no URL instead of raising. -/
theorem upload_file_to_s3_spec :
    (∀ (s : Secrets) (oc : S3Outcome) (p : String),
      (upload_file_to_s3 s oc p).attempted = s3Configured s) ∧
    (∀ (s : Secrets) (oc : S3Outcome) (p : String),
      s3Configured s = false → upload_file_to_s3 s oc p = ⟨false, none⟩) ∧
    (∀ (s : Secrets) (p : String),
      s3Configured s = true →
        upload_file_to_s3 s S3Outcome.success p =
          ⟨true, some ("https://" ++ s.s3BucketName.getD "" ++ ".s3.amazonaws.com/" ++
            basename p)⟩) ∧
    (∀ (s : Secrets) (oc : S3Outcome) (p : String),
      oc ≠ S3Outcome.success → (upload_file_to_s3 s oc p).url = none) := by
  refine ⟨?_, ?_, ?_, ?_⟩
  · intro s oc p
    by_cases h : s3Configured s
    · cases oc <;> simp [upload_file_to_s3, h]
    · simp [upload_file_to_s3, h]
  · intro s oc p h
    simp [upload_file_to_s3, h]
  · intro s p h
    simp [upload_file_to_s3, h]
  · intro s oc p h
    by_cases hc : s3Configured s
    · cases oc with
      | success => exact absurd rfl h
      | fileNotFound => simp [upload_file_to_s3, hc]
      | noCredentials => simp [upload_file_to_s3, hc]
      | failure msg => simp [upload_file_to_s3, hc]
    · simp [upload_file_to_s3, hc]

/-- Concrete instance of C3: with all three values configured a successful
upload yields the bucket/basename URL; with nothing configured the upload is
skipped with no URL. -/
theorem upload_file_to_s3_spec_witness :
    upload_file_to_s3 secFull S3Outcome.success "/tmp/a/b.png" =
      ⟨true, some ("https://" ++ secFull.s3BucketName.getD "" ++ ".s3.amazonaws.com/" ++
        basename "/tmp/a/b.png")⟩ ∧
    upload_file_to_s3 secNone S3Outcome.success "/tmp/a/b.png" = ⟨false, none⟩ ∧
    (upload_file_to_s3 secFull (S3Outcome.failure "boom") "/tmp/a/b.png").url = none :=
  ⟨upload_file_to_s3_spec.2.2.1 secFull "/tmp/a/b.png" (by decide),
   upload_file_to_s3_spec.2.1 secNone S3Outcome.success "/tmp/a/b.png" (by decide),
   upload_file_to_s3_spec.2.2.2 secFull (S3Outcome.failure "boom") "/tmp/a/b.png"
     (by intro h; cases h)⟩

/-- C10: in the spreadsheet-table rendering of the cloud-document assembler
(`str(cell) if cell else ""`), every falsy cell value — `None`, the empty
string, the integer 0, the float 0.0 and `False` — renders as the empty
string, so a cell holding the number 0 appears as an empty cell. -/
theorem xlsx_falsy_cell_render :
    (∀ c : XCell, cellTruthy c = false → pyCellRender c = "") ∧
    cellTruthy (XCell.int 0) = false ∧
    cellTruthy (XCell.float true "0.0") = false ∧
    cellTruthy (XCell.bool false) = false ∧
    cellTruthy XCell.none = false ∧
    cellTruthy (XCell.str "") = false ∧
    xlsxRowsMd [[XCell.int 0, XCell.str "a"]] = "|  | a |\n|  | - |\n" := by
  refine ⟨?_, by decide, rfl, rfl, rfl, by decide, by decide⟩
  intro c h
  simp [pyCellRender, h]

/-- Concrete instance of C10: the integer cell 0 renders as the empty string. -/
theorem xlsx_falsy_cell_render_witness : pyCellRender (XCell.int 0) = "" :=
  xlsx_falsy_cell_render.1 (XCell.int 0) (by decide)

/-- C7: the cloud-page pipeline returns no Markdown at all when the Diffbot
call does not come back with status 200, and likewise when the response holds
an empty list of content objects — never a partial or empty-but-successful
document. -/
theorem enterprise_extract_website_failure_spec :
    (∀ (s : Secrets) (resp : DiffbotResponse),
      resp.status_code ≠ 200 → enterprise_extract_website s resp = none) ∧
    (∀ (s : Secrets) (resp : DiffbotResponse),
      resp.objects.getD [] = [] → enterprise_extract_website s resp = none) := by
  constructor
  · intro s resp h
    by_cases ht : s.diffbotApiToken.getD "" == ""
    · simp [enterprise_extract_website, ht]
    · simp [enterprise_extract_website, ht, h]
  · intro s resp h
    by_cases ht : s.diffbotApiToken.getD "" == ""
    · simp [enterprise_extract_website, ht]
    · by_cases hs : resp.status_code = 200
      · simp [enterprise_extract_website, ht, hs, h, strJoin_nil]
      · simp [enterprise_extract_website, ht, hs]

/-- Concrete instance of C7: a 404 response and an empty-objects 200 response
both yield no Markdown. -/
theorem enterprise_extract_website_failure_spec_witness :
    enterprise_extract_website secFull ⟨404, some [⟨some "T", some "x", none, none⟩]⟩ = none ∧
    enterprise_extract_website secFull ⟨200, some []⟩ = none :=
  ⟨enterprise_extract_website_failure_spec.1 secFull
      ⟨404, some [⟨some "T", some "x", none, none⟩]⟩ (by decide),
   enterprise_extract_website_failure_spec.2 secFull ⟨200, some []⟩ rfl⟩

/-- C1: the local-document assembler produces one string made of exactly the
four fixed top-level sections in order — title line, `## Extracted Images`,
`## Extracted Text`, `## Extracted Tables` — and when the document has no
images and table extraction finds no tables, the Images and Tables bodies are
empty while all four headings remain. -/
theorem open_source_extract_pdf_sections :
    ∀ (s : Secrets) (net : Nat → Nat → S3Outcome) (tmpName : Nat → Nat → String)
      (to_markdown : PandasDF → String) (pdf_path : String) (pages : List PdfPage)
      (tables : Except String (List PandasDF)),
      open_source_extract_pdf s net tmpName to_markdown pdf_path pages tables =
        "# Extracted Content from " ++ basename pdf_path ++ "\n" ++
          ("\n## Extracted Images\n" ++ imageLines s net tmpName pages) ++
          ("\n## Extracted Text\n" ++ textLines pages) ++
          ("\n## Extracted Tables\n" ++ tablesBody to_markdown tables) ∧
      ((∀ pg ∈ pages, pg.images = []) → imageLines s net tmpName pages = "") ∧
      (tables = Except.ok [] → tablesBody to_markdown tables = "") := by
  intro s net tmpName to_markdown pdf_path pages tables
  refine ⟨rfl, ?_, ?_⟩
  · intro h
    unfold imageLines
    apply strJoin_all_empty
    intro pp hpp
    have h2 : pp.2 ∈ pages := snd_mem_of_mem_enumFrom pages 0 pp hpp
    rw [h pp.2 h2]
    rfl
  · intro h
    subst h
    rfl

/-- Concrete instance of C1: for a document with no pages (hence no images)
and an empty tabula result, the Images and Tables bodies evaluate to `""`. -/
theorem open_source_extract_pdf_sections_witness :
    imageLines secNone (fun _ _ => S3Outcome.success) (fun _ _ => "/tmp/x.png") [] = "" ∧
    tablesBody (fun _ => "") (Except.ok []) = "" := by
  have h := open_source_extract_pdf_sections secNone (fun _ _ => S3Outcome.success)
    (fun _ _ => "/tmp/x.png") (fun _ => "") "doc.pdf" [] (Except.ok [])
  exact ⟨h.2.1 (fun pg hpg => absurd hpg (List.not_mem_nil pg)), h.2.2 rfl⟩

/-- C8: when table extraction raises, the Tables section of the local-document
assembler consists of the single failure line, the title/Images/Text sections
are unchanged, the table renderer is never consulted (no retry, no other table
output), and a Markdown string is still returned. -/
theorem extract_tables_failure_spec :
    ∀ (s : Secrets) (net : Nat → Nat → S3Outcome) (tmpName : Nat → Nat → String)
      (to_markdown to_markdown2 : PandasDF → String) (pdf_path : String)
      (pages : List PdfPage) (e : String),
      open_source_extract_pdf s net tmpName to_markdown pdf_path pages (Except.error e) =
        "# Extracted Content from " ++ basename pdf_path ++ "\n" ++
          extract_images_to_md s net tmpName pages ++ extract_text_to_md pages ++
          ("\n## Extracted Tables\n" ++ ("\nFailed to process tables: " ++ e ++ "\n")) ∧
      open_source_extract_pdf s net tmpName to_markdown pdf_path pages (Except.error e) =
        open_source_extract_pdf s net tmpName to_markdown2 pdf_path pages (Except.error e) :=
  fun _ _ _ _ _ _ _ _ => ⟨rfl, rfl⟩

/-- The first row of a pipe-table loop indexed by `enum` yields the header and
the dash separator; every later row yields one data line. -/
theorem pipeRows_enum_cons (r0 : List String) (rest : List (List String)) :
    String.join (((r0 :: rest).enum).map fun ir =>
      "| " ++ String.intercalate " | " ir.2 ++ " |\n" ++
        (if ir.1 = 0 then
          "| " ++ String.intercalate " | " (ir.2.map fun col => dashes col.length) ++ " |\n"
        else "")) =
    ("| " ++ String.intercalate " | " r0 ++ " |\n" ++
      ("| " ++ String.intercalate " | " (r0.map fun col => dashes col.length) ++ " |\n")) ++
      String.join (rest.map fun row => "| " ++ String.intercalate " | " row ++ " |\n") := by
  have htail := strJoin_enumFrom_map
    (fun row => "| " ++ String.intercalate " | " row ++ " |\n")
    (fun ir => "| " ++ String.intercalate " | " ir.2 ++ " |\n" ++
      (if ir.1 = 0 then
        "| " ++ String.intercalate " | " (ir.2.map fun col => dashes col.length) ++ " |\n"
      else ""))
    (fun i a hi => by
      show ("| " ++ String.intercalate " | " a ++ " |\n" ++
        (if i = 0 then
          "| " ++ String.intercalate " | " (a.map fun col => dashes col.length) ++ " |\n"
        else "")) = "| " ++ String.intercalate " | " a ++ " |\n"
      rw [if_neg hi, String.append_empty])
    1 rest Nat.one_ne_zero
  rw [show (r0 :: rest).enum = (0, r0) :: rest.enumFrom 1 from rfl, List.map_cons, strJoin_cons,
    htail]
  rfl

/-- C6: the pipe-table renderers of the cloud-document and cloud-page
assemblers turn `[["A","B"],["1","2"]]` into exactly three table lines —
header, dash separator whose run per column counts that header cell's
characters, one data row — and in general render the first extracted row as
the header (the cloud-page one appends a blank separator line after the
table). -/
theorem pipe_table_render_spec :
    adobeTableRowsMd [["A", "B"], ["1", "2"]] = "| A | B |\n| - | - |\n| 1 | 2 |\n" ∧
    diffbotTableMd [["A", "B"], ["1", "2"]] = "| A | B |\n| - | - |\n| 1 | 2 |\n\n" ∧
    (∀ (r0 : List String) (rest : List (List String)),
      adobeTableRowsMd (r0 :: rest) =
        ("| " ++ String.intercalate " | " r0 ++ " |\n" ++
          ("| " ++ String.intercalate " | " (r0.map fun col => dashes col.length) ++ " |\n")) ++
          String.join (rest.map fun row => "| " ++ String.intercalate " | " row ++ " |\n")) ∧
    (∀ (r0 : List String) (rest : List (List String)),
      diffbotTableMd (r0 :: rest) =
        "| " ++ String.intercalate " | " r0 ++ " |\n" ++
          "| " ++ String.intercalate " | " (r0.map fun col => dashes col.length) ++ " |\n" ++
          String.join (rest.map fun row => "| " ++ String.intercalate " | " row ++ " |\n") ++
          "\n") := by
  refine ⟨by decide, by decide, ?_, ?_⟩
  · intro r0 rest
    exact pipeRows_enum_cons r0 rest
  · intro r0 rest
    rfl

/-- C2: the Images section emits, per image (pages in order, images in
within-page discovery order), exactly the line
`![Image page <p> - <i>](<url>)` with 1-based numbers when re-hosting returns
a URL, and the bold warning line naming that page and index when it returns
none; when object storage is not configured, no upload is attempted, every
image degrades to the warning, and the section does not depend on the network
or temp-file environment at all (the assembler, a total function here, never
throws). -/
theorem extract_images_lines_spec :
    (∀ (s : Secrets) (net : Nat → Nat → S3Outcome) (tmpName : Nat → Nat → String)
        (pages : List PdfPage),
      extract_images_to_md s net tmpName pages =
        "\n## Extracted Images\n" ++ imageLines s net tmpName pages) ∧
    (∀ (s : Secrets) (oc : S3Outcome) (tp : String) (p i : Nat) (u : String),
      (upload_file_to_s3 s oc tp).url = some u →
        imageFrag s oc tp p i =
          "![Image page " ++ toString (p + 1) ++ " - " ++ toString (i + 1) ++
            "](" ++ u ++ ")\n") ∧
    (∀ (s : Secrets) (oc : S3Outcome) (tp : String) (p i : Nat),
      (upload_file_to_s3 s oc tp).url = none →
        imageFrag s oc tp p i =
          "\n**[Warning: Failed to upload image (page " ++ toString (p + 1) ++
            ", index " ++ toString (i + 1) ++ ") to S3]**\n") ∧
    (∀ (s : Secrets) (oc : S3Outcome) (tp : String) (p i : Nat),
      s3Configured s = false →
        (upload_file_to_s3 s oc tp).attempted = false ∧
        imageFrag s oc tp p i =
          "\n**[Warning: Failed to upload image (page " ++ toString (p + 1) ++
            ", index " ++ toString (i + 1) ++ ") to S3]**\n") ∧
    (∀ (s : Secrets) (net net2 : Nat → Nat → S3Outcome)
        (tmpName tmpName2 : Nat → Nat → String) (pages : List PdfPage),
      s3Configured s = false →
        extract_images_to_md s net tmpName pages =
          extract_images_to_md s net2 tmpName2 pages) := by
  refine ⟨fun _ _ _ _ => rfl, ?_, ?_, ?_, ?_⟩
  · intro s oc tp p i u h
    simp [imageFrag, h]
  · intro s oc tp p i h
    simp [imageFrag, h]
  · intro s oc tp p i h
    constructor
    · simp [upload_file_to_s3, h]
    · simp [imageFrag, upload_file_to_s3, h]
  · intro s net net2 tmpName tmpName2 pages h
    have hw : ∀ (oc : S3Outcome) (tp : String) (p i : Nat),
        imageFrag s oc tp p i =
          "\n**[Warning: Failed to upload image (page " ++ toString (p + 1) ++
            ", index " ++ toString (i + 1) ++ ") to S3]**\n" := by
      intro oc tp p i
      simp [imageFrag, upload_file_to_s3, h]
    show "\n## Extracted Images\n" ++ imageLines s net tmpName pages =
      "\n## Extracted Images\n" ++ imageLines s net2 tmpName2 pages
    unfold imageLines
    congr 1
    apply congrArg String.join
    apply List.map_congr_left
    intro pp _
    apply congrArg String.join
    apply List.map_congr_left
    intro ii _
    rw [hw, hw]

/-- Concrete instance of C2: a successful re-hosting yields the image
reference line, a failed one (and the unconfigured store, where no upload is
attempted) yields the warning line. -/
theorem extract_images_lines_spec_witness :
    imageFrag secFull S3Outcome.success "/tmp/img1.png" 0 0 =
      "![Image page " ++ toString (0 + 1) ++ " - " ++ toString (0 + 1) ++
        "](" ++ "https://bkt.s3.amazonaws.com/img1.png" ++ ")\n" ∧
    imageFrag secFull (S3Outcome.failure "boom") "/tmp/img1.png" 2 4 =
      "\n**[Warning: Failed to upload image (page " ++ toString (2 + 1) ++
        ", index " ++ toString (4 + 1) ++ ") to S3]**\n" ∧
    (upload_file_to_s3 secNone S3Outcome.success "/tmp/img1.png").attempted = false :=
  ⟨extract_images_lines_spec.2.1 secFull S3Outcome.success "/tmp/img1.png" 0 0
      "https://bkt.s3.amazonaws.com/img1.png" (by decide),
   extract_images_lines_spec.2.2.1 secFull (S3Outcome.failure "boom") "/tmp/img1.png" 2 4
      (by decide),
   (extract_images_lines_spec.2.2.2.1 secNone S3Outcome.success "/tmp/img1.png" 0 0
      (by decide)).1⟩

theorem foldl_max_const (L : Nat) :
    ∀ (xs : List Nat) (a : Nat), (∀ x ∈ xs, x = L) → xs ≠ [] → xs.foldl Nat.max a = Nat.max a L
  | [], _, _, hne => absurd rfl hne
  | x :: xs, a, h, _ => by
      have hx : x = L := h x (List.mem_cons_self x xs)
      by_cases hxs : xs = []
      · subst hxs; subst hx; rfl
      · rw [List.foldl_cons, hx,
          foldl_max_const L xs (Nat.max a L) (fun y hy => h y (List.mem_cons_of_mem x hy)) hxs]
        exact Nat.max_eq_left (Nat.le_max_right a L)

/-- C9: in the local-page assembler, the first extracted row of an HTML table
becomes the pipe-table header exactly when the table has more than one row —
with more than one row the frame is `⟨first row as columns, remaining rows⟩`,
while a single-row table keeps pandas' default integer column labels and its
row stays in the data. -/
theorem website_table_header_promotion :
    (∀ (r0 r1 : List String) (rest : List (List String)),
      (∀ r ∈ (r0 :: r1 :: rest : List (List String)), r.length = r0.length) →
        websiteTableDf (r0 :: r1 :: rest) = some ⟨r0, r1 :: rest⟩) ∧
    (∀ r : List String,
      websiteTableDf [r] = some ⟨(List.range r.length).map toString, [r]⟩) := by
  constructor
  · intro r0 r1 rest h
    have hn : dfNumCols (r0 :: r1 :: rest) = r0.length := by
      have := foldl_max_const r0.length ((r0 :: r1 :: rest).map List.length) 0
        (fun x hx => by
          rcases List.mem_map.mp hx with ⟨r, hr, hxr⟩
          rw [← hxr, h r hr])
        (by simp)
      rw [dfNumCols, this]
      exact Nat.max_eq_right (Nat.zero_le _)
    have hp : ∀ r ∈ (r0 :: r1 :: rest : List (List String)), padRow r0.length r = r := by
      intro r hr
      simp [padRow, h r hr]
    have hmap : (r0 :: r1 :: rest).map (padRow r0.length) = r0 :: r1 :: rest := by
      rw [List.map_congr_left hp]
      simp
    simp only [websiteTableDf, hn, hmap]
    rfl
  · intro r
    have hn : dfNumCols [r] = r.length := by
      rw [dfNumCols, List.map_cons, List.map_nil, List.foldl_cons, List.foldl_nil]
      exact Nat.max_eq_right (Nat.zero_le _)
    have hp : padRow r.length r = r := by simp [padRow]
    simp only [websiteTableDf, hn, List.map_cons, List.map_nil, hp]
    rfl

/-- Concrete instance of C9: the two-row table promotes its first row to the
header; the one-row table keeps integer column labels and its row as data. -/
theorem website_table_header_promotion_witness :
    websiteTableDf [["A", "B"], ["1", "2"]] = some ⟨["A", "B"], [["1", "2"]]⟩ :=
  website_table_header_promotion.1 ["A", "B"] ["1", "2"] [] (by decide)

theorem isPrefixOf_dest : ∀ (p l : List Char), p.isPrefixOf l = true → ∃ t, l = p ++ t
  | [], l, _ => ⟨l, rfl⟩
  | a :: p, l, h => by
      cases l with
      | nil =>
          simp only [List.isPrefixOf] at h
          exact absurd h Bool.false_ne_true
      | cons b t =>
          simp only [List.isPrefixOf, Bool.and_eq_true, beq_iff_eq] at h
          rcases isPrefixOf_dest p t h.2 with ⟨u, hu⟩
          exact ⟨u, by rw [show b = a from h.1.symm, hu]; rfl⟩

theorem isPrefixOf_append : ∀ (p t : List Char), p.isPrefixOf (p ++ t) = true
  | [], _ => by simp [List.isPrefixOf]
  | a :: p, t => by
      simp only [List.cons_append, List.isPrefixOf, beq_self_eq_true, Bool.true_and]
      exact isPrefixOf_append p t

/-- A string starts with every one of its own leading chunks. -/
theorem pyStartsWith_append (a b : String) : pyStartsWith (a ++ b) a = true := by
  unfold pyStartsWith
  rw [String.data_append]
  exact isPrefixOf_append a.data b.data

/-- Extending a string on the right preserves any leading chunk it has. -/
theorem pyStartsWith_append_of (a b q : String) (h : pyStartsWith a q = true) :
    pyStartsWith (a ++ b) q = true := by
  unfold pyStartsWith at *
  rw [String.data_append]
  rcases isPrefixOf_dest q.data a.data h with ⟨t, ht⟩
  rw [ht, List.append_assoc]
  exact isPrefixOf_append q.data (t ++ b.data)

/-- A string beginning with `http:` or `https:` cannot begin with `//`. -/
theorem http_not_protoRel (s : String)
    (h : pyStartsWith s "http:" = true ∨ pyStartsWith s "https:" = true) :
    pyStartsWith s "//" = false := by
  unfold pyStartsWith at *
  rcases h with h | h
  · rcases isPrefixOf_dest _ _ h with ⟨t, ht⟩
    rw [show ("http:".data : List Char) = 'h' :: 't' :: 't' :: 'p' :: ':' :: [] from rfl] at ht
    rw [ht]
    rfl
  · rcases isPrefixOf_dest _ _ h with ⟨t, ht⟩
    rw [show ("https:".data : List Char) = 'h' :: 't' :: 't' :: 'p' :: 's' :: ':' :: [] from rfl]
      at ht
    rw [ht]
    rfl

/-- C4: in the local-page assembler, image srcs and link hrefs are normalised
before rendering — a protocol-relative src gets `https:` prepended, srcs and
hrefs already starting with `http:`/`https:` pass through unchanged, the two
spec examples hold, and every scheme-less (relative or protocol-relative,
non-empty) src/href resolved against an `http(s)` page URL comes out as an
absolute `http:`/`https:` URL. -/
theorem website_url_resolution_spec :
    (∀ url src : String,
      pyStartsWith src "//" = true → resolveSrc url src = "https:" ++ src) ∧
    (∀ url src : String,
      pyStartsWith src "http:" = true ∨ pyStartsWith src "https:" = true →
        resolveSrc url src = src) ∧
    (∀ url href : String,
      pyStartsWith href "http:" = true ∨ pyStartsWith href "https:" = true →
        resolveHref url href = href) ∧
    (∀ url : String,
      resolveSrc url "//cdn.example.com/a.png" = "https://cdn.example.com/a.png") ∧
    resolveHref "https://x.com/blog" "/about" = "https://x.com/about" ∧
    (∀ (url href : String) (p : UrlParts),
      splitUrl url = some p → p.scheme = "http" ∨ p.scheme = "https" →
      hasScheme href = false → pyStartsWith href "http:" = false →
      pyStartsWith href "https:" = false → href ≠ "" →
        pyStartsWith (resolveHref url href) "http:" = true ∨
        pyStartsWith (resolveHref url href) "https:" = true) ∧
    (∀ (url src : String) (p : UrlParts),
      splitUrl url = some p → p.scheme = "http" ∨ p.scheme = "https" →
      hasScheme src = false → pyStartsWith src "http:" = false →
      pyStartsWith src "https:" = false → src ≠ "" →
        pyStartsWith (resolveSrc url src) "http:" = true ∨
        pyStartsWith (resolveSrc url src) "https:" = true) := by
  have habs : ∀ (url ref : String) (p : UrlParts),
      splitUrl url = some p → p.scheme = "http" ∨ p.scheme = "https" →
      hasScheme ref = false → ref ≠ "" →
        pyStartsWith (urljoin url ref) "http:" = true ∨
        pyStartsWith (urljoin url ref) "https:" = true := by
    intro url ref p hsplit hsch hns hne
    have hbeq : (ref == "") = false := beq_eq_false_iff_ne.mpr hne
    by_cases hpr : pyStartsWith ref "//" = true
    · rw [show urljoin url ref = p.scheme ++ ":" ++ ref by
        simp [urljoin, hbeq, hpr, hsplit]]
      rcases hsch with hs | hs <;> rw [hs]
      · exact Or.inl (by
          rw [show ("http" ++ ":" ++ ref : String) = "http:" ++ ref from rfl]
          exact pyStartsWith_append "http:" ref)
      · exact Or.inr (by
          rw [show ("https" ++ ":" ++ ref : String) = "https:" ++ ref from rfl]
          exact pyStartsWith_append "https:" ref)
    · have hpr2 : pyStartsWith ref "//" = false := by
        simp only [Bool.not_eq_true] at hpr
        exact hpr
      by_cases hsl : pyStartsWith ref "/" = true
      · rw [show urljoin url ref = p.scheme ++ "://" ++ p.netloc ++ removeDotSegments ref by
          simp [urljoin, hbeq, hpr2, hns, hsplit, hsl]]
        rcases hsch with hs | hs <;> rw [hs]
        · exact Or.inl (pyStartsWith_append_of _ _ _
            (pyStartsWith_append_of ("http" ++ "://") p.netloc "http:" (by decide)))
        · exact Or.inr (pyStartsWith_append_of _ _ _
            (pyStartsWith_append_of ("https" ++ "://") p.netloc "https:" (by decide)))
      · have hsl2 : pyStartsWith ref "/" = false := by
          simp only [Bool.not_eq_true] at hsl
          exact hsl
        rw [show urljoin url ref =
            p.scheme ++ "://" ++ p.netloc ++ removeDotSegments (mergePaths p.path ref) by
          simp [urljoin, hbeq, hpr2, hns, hsplit, hsl2]]
        rcases hsch with hs | hs <;> rw [hs]
        · exact Or.inl (pyStartsWith_append_of _ _ _
            (pyStartsWith_append_of ("http" ++ "://") p.netloc "http:" (by decide)))
        · exact Or.inr (pyStartsWith_append_of _ _ _
            (pyStartsWith_append_of ("https" ++ "://") p.netloc "https:" (by decide)))
  refine ⟨?_, ?_, ?_, ?_, ?_, ?_, ?_⟩
  · intro url src h
    simp [resolveSrc, h]
  · intro url src h
    have hp := http_not_protoRel src h
    rcases h with h | h <;> simp [resolveSrc, hp, h]
  · intro url href h
    rcases h with h | h <;> simp [resolveHref, h]
  · intro url
    rfl
  · rfl
  · intro url href p hsplit hsch hns hh1 hh2 hne
    rw [show resolveHref url href = urljoin url href by simp [resolveHref, hh1, hh2]]
    exact habs url href p hsplit hsch hns hne
  · intro url src p hsplit hsch hns hh1 hh2 hne
    by_cases hpr : pyStartsWith src "//" = true
    · rw [show resolveSrc url src = "https:" ++ src by simp [resolveSrc, hpr]]
      exact Or.inr (pyStartsWith_append "https:" src)
    · have hpr2 : pyStartsWith src "//" = false := by
        simp only [Bool.not_eq_true] at hpr
        exact hpr
      rw [show resolveSrc url src = urljoin url src by simp [resolveSrc, hpr2, hh1, hh2]]
      exact habs url src p hsplit hsch hns hne

/-- Concrete instance of C4: the spec's two examples obtained through the
conditional parts of the theorem, plus absoluteness of a relative href on an
`https` page. -/
theorem website_url_resolution_spec_witness :
    resolveSrc "https://x.com/blog" "//cdn.example.com/a.png" =
      "https:" ++ "//cdn.example.com/a.png" ∧
    resolveSrc "https://x.com/blog" "https://y.com/b.png" = "https://y.com/b.png" ∧
    resolveHref "https://x.com/blog" "http://y.com/c" = "http://y.com/c" ∧
    (pyStartsWith (resolveHref "https://x.com/blog" "/about") "http:" = true ∨
      pyStartsWith (resolveHref "https://x.com/blog" "/about") "https:" = true) :=
  ⟨website_url_resolution_spec.1 "https://x.com/blog" "//cdn.example.com/a.png" (by decide),
   website_url_resolution_spec.2.1 "https://x.com/blog" "https://y.com/b.png"
     (Or.inr (by decide)),
   website_url_resolution_spec.2.2.1 "https://x.com/blog" "http://y.com/c" (Or.inl (by decide)),
   website_url_resolution_spec.2.2.2.2.2.1 "https://x.com/blog" "/about"
     ⟨"https", "x.com", "/blog"⟩ (by decide) (Or.inr rfl) (by decide) (by decide) (by decide)
     (by decide)⟩

theorem takeWhile_append_stop (l2 r : List Char) :
    List.takeWhile (fun c => c != '/') (l2 ++ '/' :: r) =
      List.takeWhile (fun c => c != '/') l2 := by
  induction l2 with
  | nil => simp [List.takeWhile_cons]
  | cons a t ih =>
      by_cases ha : (a != '/') = true
      · simp only [List.cons_append, List.takeWhile_cons, ha, if_true, ih]
      · have ha2 : (a != '/') = false := by
          simp only [Bool.not_eq_true] at ha
          exact ha
        simp only [List.cons_append, List.takeWhile_cons, ha2]
        rfl

/-- The basename of a file inside a `figures/` directory does not depend on
where that directory lives. -/
theorem basename_figures (d n : String) : basename (d ++ "/figures/" ++ n) = basename n := by
  unfold basename
  simp only [String.data_append, List.reverse_append]
  rw [show ("/figures/".data : List Char).reverse =
      '/' :: 's' :: 'e' :: 'r' :: 'u' :: 'g' :: 'i' :: 'f' :: '/' :: [] from rfl]
  simp only [List.cons_append]
  rw [takeWhile_append_stop]

/-- When the store is configured and every figure upload succeeds, the figures
section depends only on the figure file names, not on the extraction
directory. -/
theorem figuresMd_dir_irrelevant (s : Secrets) (net : String → S3Outcome)
    (hc : s3Configured s = true) (hnet : ∀ name, net name = S3Outcome.success)
    (folder : Option (List (String × Bool))) (d1 d2 : String) :
    figuresMd s net d1 folder = figuresMd s net d2 folder := by
  cases folder with
  | none => rfl
  | some files =>
      have hfig : ∀ d : String, figuresMd s net d (some files) =
          "## Images\n\n" ++ String.join ((sortByName files).map fun fg =>
            if fg.2 then
              match (upload_file_to_s3 s (net fg.1) (d ++ "/figures/" ++ fg.1)).url with
              | some u => "![Figure](" ++ u ++ ")\n\n"
              | none => "![Figure](" ++ (d ++ "/figures/" ++ fg.1) ++ ")\n\n"
            else "") := fun d => rfl
      rw [hfig d1, hfig d2]
      congr 1
      apply congrArg String.join
      apply List.map_congr_left
      intro fg _
      by_cases hf : fg.2 = true
      · simp only [hf, if_true, hnet fg.1, upload_file_to_s3, hc, basename_figures d1 fg.1,
          basename_figures d2 fg.1]
      · have hf2 : fg.2 = false := by
          simp only [Bool.not_eq_true] at hf
          exact hf
        simp only [hf2]
        rfl

/-- C5 fails on the cloud-document assembler: with identical backend results
(the same bundle, secrets and transport behaviour) but two different
`datetime.now()` timestamps, the timestamped extraction directory reappears in
the figure-fallback line of the output, so the two Markdown results differ. -/
theorem adobe_markdown_not_idempotent :
    ¬ (adobe_zip_to_markdown secNone netSuccess (create_adobe_zip_path "2025-01-01T00-00-00")
         figBundle =
       adobe_zip_to_markdown secNone netSuccess (create_adobe_zip_path "2025-01-01T00-00-01")
         figBundle) := by decide

/-- C5 as amended: the local-page and cloud-page assemblers are pure functions
of their backend inputs, so their idempotence is structural; the cloud-document
assembler is byte-identical across runs (independent of the timestamped zip
path) whenever object storage is configured and every figure upload succeeds
(failed figure uploads leak the timestamped local path, as the counterexample
shows); and the local-document assembler is byte-identical across runs
whenever object storage is not configured (successful image uploads embed the
run-dependent temp-file basename in the URL). -/
theorem assembler_idempotence_amended :
    (∀ (s : Secrets) (net : String → S3Outcome) (z1 z2 : String) (b : AdobeBundle),
      s3Configured s = true → (∀ name, net name = S3Outcome.success) →
        adobe_zip_to_markdown s net z1 b = adobe_zip_to_markdown s net z2 b) ∧
    (∀ (s : Secrets) (net net2 : Nat → Nat → S3Outcome) (tmp tmp2 : Nat → Nat → String)
        (to_markdown : PandasDF → String) (pdf_path : String) (pages : List PdfPage)
        (tables : Except String (List PandasDF)),
      s3Configured s = false →
        open_source_extract_pdf s net tmp to_markdown pdf_path pages tables =
          open_source_extract_pdf s net2 tmp2 to_markdown pdf_path pages tables) := by
  constructor
  · intro s net z1 z2 b hc hnet
    unfold adobe_zip_to_markdown
    by_cases hm : b.hasManifest = true
    · simp only [hm, if_true]
      rw [figuresMd_dir_irrelevant s net hc hnet b.figuresFolder
        (pyReplace z1 ".zip" "") (pyReplace z2 ".zip" "")]
    · have hm2 : b.hasManifest = false := by
        simp only [Bool.not_eq_true] at hm
        exact hm
      simp only [hm2]
      rfl
  · intro s net net2 tmp tmp2 to_markdown pdf_path pages tables h
    have hw : ∀ (oc : S3Outcome) (tp : String) (p i : Nat),
        imageFrag s oc tp p i =
          "\n**[Warning: Failed to upload image (page " ++ toString (p + 1) ++
            ", index " ++ toString (i + 1) ++ ") to S3]**\n" := by
      intro oc tp p i
      simp [imageFrag, upload_file_to_s3, h]
    have himg : imageLines s net tmp pages = imageLines s net2 tmp2 pages := by
      unfold imageLines
      apply congrArg String.join
      apply List.map_congr_left
      intro pp _
      apply congrArg String.join
      apply List.map_congr_left
      intro ii _
      rw [hw, hw]
    unfold open_source_extract_pdf extract_images_to_md
    rw [himg]

/-- Concrete instance of the amended C5: with a configured store and a
successful transport the cloud-document output is the same for two different
timestamps, and with no configured store the local-document output does not
depend on transport or temp-file names. -/
theorem assembler_idempotence_amended_witness :
    adobe_zip_to_markdown secFull netSuccess (create_adobe_zip_path "2025-01-01T00-00-00")
        figBundle =
      adobe_zip_to_markdown secFull netSuccess (create_adobe_zip_path "2025-01-01T00-00-01")
        figBundle ∧
    open_source_extract_pdf secNone (fun _ _ => S3Outcome.success) (fun _ _ => "/tmp/a.png")
        (fun _ => "") "d.pdf" [⟨[⟨"png"⟩], some "t"⟩] (Except.ok []) =
      open_source_extract_pdf secNone (fun _ _ => S3Outcome.fileNotFound)
        (fun _ _ => "/tmp/b.png") (fun _ => "") "d.pdf" [⟨[⟨"png"⟩], some "t"⟩]
        (Except.ok []) :=
  ⟨assembler_idempotence_amended.1 secFull netSuccess
      (create_adobe_zip_path "2025-01-01T00-00-00") (create_adobe_zip_path "2025-01-01T00-00-01")
      figBundle (by decide) (fun _ => rfl),
   assembler_idempotence_amended.2 secNone (fun _ _ => S3Outcome.success)
      (fun _ _ => S3Outcome.fileNotFound) (fun _ _ => "/tmp/a.png") (fun _ _ => "/tmp/b.png")
      (fun _ => "") "d.pdf" [⟨[⟨"png"⟩], some "t"⟩] (Except.ok []) (by decide)⟩
